import Mathlib

/-!
Verification of the wildfire evacuation router's core safe-route logic.

The development shallowly embeds `EvacuationService` (source file
`src/services/evacuationService.ts`) together with the data model of
`src/types/index.ts`.  Numbers are modelled by real numbers (the source uses
IEEE doubles); the two network collaborators (NASA FIRMS fire data, Mapbox
directions) are modelled as explicit parameters: an optional credential and a
response value (or provider function), so every operation is a total function
of its inputs.  Untyped JSON field values flowing into `getActiveFires` are
modelled by the inductive `JVal`, with JavaScript truthiness and `isNaN`
coercion reproduced on it.
-/

open Classical

/-- Coordinate pair, `Location` in `src/types/index.ts`. -/
structure Location where
  lat : ℝ
  lng : ℝ

/-- One fire detection, `FireData` in `src/types/index.ts`.
`brightness`, `scan`, `track`, `satellite` are optional in the source. -/
structure FireData where
  latitude : ℝ
  longitude : ℝ
  confidence : String
  date : String
  brightness : Option ℝ
  scan : Option ℝ
  track : Option ℝ
  satellite : Option String

/-- Kind of a safe point, the `type` union in `SafePoint`. -/
inductive SafePointKind
  | shelter
  | hospital
  | police
  | fire_station

/-- Contact block of a `SafePoint`. -/
structure ContactInfo where
  phone : Option String
  email : Option String

/-- Candidate evacuation destination, `SafePoint` in `src/types/index.ts`. -/
structure SafePoint where
  id : String
  name : String
  location : Location
  type : SafePointKind
  capacity : Option ℕ
  contact : Option ContactInfo
  facilities : Option (List String)
  isOpen : Bool
  lastUpdated : String

/-- GeoJSON line geometry: an ordered list of (lng, lat) pairs. -/
structure LineString where
  coordinates : List (ℝ × ℝ)

/-- One alternative route entry of `RouteData.alternatives`. -/
structure AltRoute where
  geometry : LineString
  duration : ℝ
  distance : ℝ

/-- Route result, `RouteData` in `src/types/index.ts`.  `warnings` and
`alternatives` are optional fields; `none` models a JS `undefined`. -/
structure RouteData where
  geometry : LineString
  duration : ℝ
  distance : ℝ
  warnings : Option (List String)
  alternatives : Option (List AltRoute)

/-- One route object of a Mapbox directions response (`response.data.routes`). -/
structure MapboxRoute where
  geometry : LineString
  duration : ℝ
  distance : ℝ

/-- Payload of a Mapbox directions response.  `routes := none` models a
response whose `routes` field is absent (the source checks
`!response.data.routes`). -/
structure DirectionsResponse where
  routes : Option (List MapboxRoute)

/-- A failed network request (an `axios` rejection). -/
inductive NetworkError
  | timeout
  | httpFailure (status : ℕ)
  | other (message : String)

/-- Two-argument arctangent, `Math.atan2(y, x)`, on real numbers. -/
noncomputable def atan2 (y x : ℝ) : ℝ :=
  if 0 < x then Real.arctan (y / x)
  else if x < 0 then
    if 0 ≤ y then Real.arctan (y / x) + Real.pi
    else Real.arctan (y / x) - Real.pi
  else
    if 0 < y then Real.pi / 2
    else if y < 0 then -(Real.pi / 2)
    else 0

/-- Haversine great-circle distance in meters,
`EvacuationService.calculateDistance`. -/
noncomputable def calculateDistance (point1 point2 : Location) : ℝ :=
  let R : ℝ := 6371e3
  let φ1 := point1.lat * Real.pi / 180
  let φ2 := point2.lat * Real.pi / 180
  let Δφ := (point2.lat - point1.lat) * Real.pi / 180
  let Δlng := (point2.lng - point1.lng) * Real.pi / 180
  let a := Real.sin (Δφ / 2) * Real.sin (Δφ / 2) +
    Real.cos φ1 * Real.cos φ2 * Real.sin (Δlng / 2) * Real.sin (Δlng / 2)
  let c := 2 * atan2 (Real.sqrt a) (Real.sqrt (1 - a))
  R * c

/-- Fire-proximity safety check, `EvacuationService.isRouteSafe`.
The pair is unsafe when some fire lies strictly within `safetyRadius` meters
of the start location or of the safe point's location (the source's
`!activeFires.some(...)`).  The TypeScript default argument
`safetyRadius = 5000` is passed explicitly by every caller in this embedding. -/
def isRouteSafe (location : Location) (safePoint : SafePoint)
    (activeFires : List FireData) (safetyRadius : ℝ) : Prop :=
  ¬ ∃ fire ∈ activeFires,
    calculateDistance location ⟨fire.latitude, fire.longitude⟩ < safetyRadius ∨
    calculateDistance safePoint.location ⟨fire.latitude, fire.longitude⟩ < safetyRadius

/-- Nearest safe destination selector, `EvacuationService.findNearestSafePoint`.
The JavaScript `reduce` without an initial value is the fold of the tail over
the head of the filtered candidate list; the comparison is strict, so on a tie
the earlier candidate is kept. -/
noncomputable def findNearestSafePoint (location : Location)
    (safePoints : List SafePoint) (activeFires : List FireData) :
    Option SafePoint :=
  match safePoints.filter
      (fun point => decide (isRouteSafe location point activeFires 5000)) with
  | [] => none
  | h :: t =>
    some (t.foldl (fun nearest point =>
      if calculateDistance location point.location <
          calculateDistance location nearest.location
      then point else nearest) h)

/-- Route provider client, `EvacuationService.getEvacuationRoute`.
`accessToken` models `process.env.NEXT_PUBLIC_MAPBOX_TOKEN` (with `none` or
the empty string both falsy, as in `if (!accessToken)`); `provider` models the
awaited Mapbox directions request, which either rejects or resolves.  The
source returns only `{ geometry, duration, distance }` of `routes[0]`, so
`warnings` and `alternatives` of the result are always `none`. -/
def getEvacuationRoute (accessToken : Option String)
    (provider : Location → Location → Except NetworkError DirectionsResponse)
    (start dest : Location) : Option RouteData :=
  match accessToken with
  | none => none
  | some token =>
    if token = "" then none
    else
      match provider start dest with
      | .error _ => none
      | .ok data =>
        match data.routes with
        | none => none
        | some [] => none
        | some (route :: _) =>
          some ⟨route.geometry, route.duration, route.distance, none, none⟩

/-- Safe-route orchestrator, `EvacuationService.findSafestRoute`.  Every
failure path of the source (`safePoints.length === 0`, no safe point found,
route request failure) logs to the console and returns `null`, modelled as
`none`. -/
noncomputable def findSafestRoute (accessToken : Option String)
    (provider : Location → Location → Except NetworkError DirectionsResponse)
    (userLocation : Location) (safePoints : List SafePoint)
    (activeFires : List FireData) : Option RouteData :=
  if safePoints.length = 0 then none
  else
    match findNearestSafePoint userLocation safePoints activeFires with
    | none => none
    | some nearest =>
      getEvacuationRoute accessToken provider userLocation nearest.location

/-- Untyped JSON field value as seen by `getActiveFires` when it inspects the
FIRMS response entries: absent (`undefined`), the float `NaN`, a finite
number, or a string. -/
inductive JVal
  | missing
  | nan
  | num (x : ℚ)
  | str (s : String)

/-- Digit-string value used by the decimal parse below. -/
def digitsVal (cs : List Char) : Option ℕ :=
  if cs = [] then none
  else if cs.all Char.isDigit then
    some (cs.foldl (fun n c => 10 * n + (c.toNat - 48)) 0)
  else none

/-- JavaScript `Number()` coercion on a plain decimal string: the empty string
is `0`, an optional leading minus sign, digits with an optional fractional
part; anything else is `NaN` (`none`).  Exotic accepted JS forms (exponents,
hex, surrounding whitespace) are out of the modelled value space. -/
def strToNum (s : String) : Option ℚ :=
  let core : List Char → Option ℚ := fun cs =>
    match cs.splitOn '.' with
    | [w] => (digitsVal w).map (fun n => (n : ℚ))
    | [w, f] =>
      match digitsVal w, digitsVal f with
      | some n, some m => some ((n : ℚ) + (m : ℚ) / (10 : ℚ) ^ f.length)
      | _, _ => none
    | _ => none
  match s.toList with
  | [] => some 0
  | '-' :: rest => (core rest).map (fun q => -q)
  | cs => core cs

/-- JavaScript `Number()` coercion of a field value; `none` stands for `NaN`. -/
def jsToNumber : JVal → Option ℚ
  | .missing => none
  | .nan => none
  | .num x => some x
  | .str s => strToNum s

/-- JavaScript global `isNaN` applied to a field value. -/
def jsIsNaN (v : JVal) : Bool :=
  (jsToNumber v).isNone

/-- JavaScript truthiness of a field value: `undefined`, `NaN`, `0` and the
empty string are falsy. -/
def truthy : JVal → Bool
  | .missing => false
  | .nan => false
  | .num x => decide (x ≠ 0)
  | .str s => decide (s ≠ "")

/-- JavaScript `String()` coercion of a field value. -/
def jsString : JVal → String
  | .missing => "undefined"
  | .nan => "NaN"
  | .num x => toString x
  | .str s => s

/-- One entry of the FIRMS response array, with exactly the fields the source
reads.  Field values are untyped. -/
structure RawFire where
  latitude : JVal
  longitude : JVal
  confidence : JVal
  acq_date : JVal
  bright_ti4 : JVal

/-- Payload of the FIRMS response: either an array of entries or any
non-array value (the source checks `!response.data || !Array.isArray(...)`). -/
inductive FiresResponse
  | arr (entries : List RawFire)
  | notArray

/-- The coordinate filter of `getActiveFires`:
`fire.latitude && fire.longitude && !isNaN(fire.latitude) && !isNaN(fire.longitude)`. -/
def validCoords (fire : RawFire) : Bool :=
  truthy fire.latitude && truthy fire.longitude &&
    !jsIsNaN fire.latitude && !jsIsNaN fire.longitude

/-- The mapping step of `getActiveFires`.  `now` models
`new Date().toISOString()`.  The `getD 0` branches are unreachable for entries
that passed `validCoords` (their coercion is not `NaN`); on the source's
`fire.bright_ti4 || 350` the kept raw value is numerically coerced here. -/
def fireOfRaw (now : String) (fire : RawFire) : FireData :=
  ⟨(((jsToNumber fire.latitude).getD 0 : ℚ) : ℝ),
    (((jsToNumber fire.longitude).getD 0 : ℚ) : ℝ),
    jsString (if truthy fire.confidence then fire.confidence else JVal.str "50"),
    if truthy fire.acq_date then jsString fire.acq_date else now,
    some (if truthy fire.bright_ti4
      then (((jsToNumber fire.bright_ti4).getD 0 : ℚ) : ℝ) else 350),
    none, none, none⟩

/-- Fire data client, `EvacuationService.getActiveFires`.  `apiKey` models
`process.env.NEXT_PUBLIC_NASA_FIRMS_KEY` (`none` or the empty string are both
falsy); `fetch` models the awaited FIRMS request.  Every failure path of the
source returns `[]`. -/
def getActiveFires (apiKey : Option String)
    (fetch : Except NetworkError FiresResponse) (now : String) :
    List FireData :=
  match apiKey with
  | none => []
  | some key =>
    if key = "" then []
    else
      match fetch with
      | .error _ => []
      | .ok .notArray => []
      | .ok (.arr entries) =>
        (entries.filter validCoords).map (fireOfRaw now)

/-- The fold performed by `findNearestSafePoint`'s `reduce`, abstracted over
the scoring function `d` for the proofs below; `findNearestSafePoint` is
definitionally this loop at `d := calculateDistance location ·.location`. -/
noncomputable def selLoop (d : SafePoint → ℝ) (h : SafePoint)
    (t : List SafePoint) : SafePoint :=
  t.foldl (fun nearest point => if d point < d nearest then point else nearest) h

/-- Replace the `isOpen` field of a safe point. -/
def setOpen (b : Bool) (p : SafePoint) : SafePoint :=
  ⟨p.id, p.name, p.location, p.type, p.capacity, p.contact, p.facilities, b,
    p.lastUpdated⟩

/-- Sample requester position (downtown Los Angeles). -/
def sampleStart : Location := ⟨34.05, -118.24⟩

/-- Sample open shelter (the source's Dodger Stadium entry). -/
def dodgerShelter : SafePoint :=
  ⟨"shelter-dodger", "Dodger Stadium Emergency Shelter", ⟨34.0739, -118.24⟩,
    SafePointKind.shelter, some 1000, some ⟨some "213-555-0123", none⟩,
    some ["parking", "medical", "food", "water"], true,
    "2026-01-01T00:00:00.000Z"⟩

/-- Sample shelter that is not currently accepting people. -/
def closedShelter : SafePoint :=
  ⟨"shelter-closed", "LA Convention Center Shelter", ⟨34.0403, -118.2696⟩,
    SafePointKind.shelter, some 2000, none, none, false,
    "2026-01-01T00:00:00.000Z"⟩

/-- Sample fire detection located exactly at `dodgerShelter`. -/
def fireAtDodger : FireData :=
  ⟨34.0739, -118.24, "80", "2026-01-07", some 350, none, none, none⟩

/-- Sample top-ranked Mapbox route. -/
def routeOne : MapboxRoute :=
  ⟨⟨[(-118.24, 34.05), (-118.24, 34.0739)]⟩, 600, 9000⟩

/-- Sample alternative Mapbox route. -/
def routeTwo : MapboxRoute :=
  ⟨⟨[(-118.24, 34.05), (-118.2696, 34.0403)]⟩, 700, 9500⟩

/-- Sample provider resolving with a primary route and one alternative. -/
def providerTwoRoutes :
    Location → Location → Except NetworkError DirectionsResponse :=
  fun _ _ => Except.ok ⟨some [routeOne, routeTwo]⟩

/-- Sample provider resolving with zero candidate routes. -/
def providerNoRoutes :
    Location → Location → Except NetworkError DirectionsResponse :=
  fun _ _ => Except.ok ⟨some []⟩

/-- Sample provider whose request fails. -/
def providerDown :
    Location → Location → Except NetworkError DirectionsResponse :=
  fun _ _ => Except.error NetworkError.timeout

/-- Sample well-formed FIRMS entry. -/
def rawFireGood : RawFire :=
  ⟨JVal.num 34, JVal.num (-118), JVal.str "80", JVal.str "2026-01-07",
    JVal.num 360⟩

/-- Sample FIRMS entry reported on the equator. -/
def rawFireZeroLat : RawFire :=
  ⟨JVal.num 0, JVal.num (-118), JVal.str "80", JVal.str "2026-01-07",
    JVal.num 360⟩

/-- Sample FIRMS entry with no confidence and no brightness reading. -/
def rawFireDefaulted : RawFire :=
  ⟨JVal.num 34, JVal.num (-118), JVal.missing, JVal.str "2026-01-07",
    JVal.missing⟩

/-- Sample FIRMS entry with an absent latitude. -/
def rawFireNoCoords : RawFire :=
  ⟨JVal.missing, JVal.num (-118), JVal.str "80", JVal.str "2026-01-07",
    JVal.num 360⟩

/-- Helper: `Math.atan2(0, 1)` is zero. -/
theorem atan2_zero_one : atan2 0 1 = 0 := by
  unfold atan2
  rw [if_pos one_pos]
  simp [Real.arctan_zero]

/-- Helper: the haversine distance from a point to itself is exactly zero. -/
theorem calculateDistance_self (a : Location) : calculateDistance a a = 0 := by
  unfold calculateDistance
  simp [atan2_zero_one]

/-- Helper: the haversine distance is symmetric in its two arguments. -/
theorem calculateDistance_comm (a b : Location) :
    calculateDistance a b = calculateDistance b a := by
  have hs : ∀ x y : ℝ,
      Real.sin ((x - y) * Real.pi / 180 / 2) * Real.sin ((x - y) * Real.pi / 180 / 2) =
      Real.sin ((y - x) * Real.pi / 180 / 2) * Real.sin ((y - x) * Real.pi / 180 / 2) := by
    intro x y
    rw [show (x - y) * Real.pi / 180 / 2 = -((y - x) * Real.pi / 180 / 2) by ring,
      Real.sin_neg]
    ring
  have hcs : ∀ c1 c2 x y : ℝ,
      Real.cos c1 * Real.cos c2 * Real.sin ((x - y) * Real.pi / 180 / 2) *
        Real.sin ((x - y) * Real.pi / 180 / 2) =
      Real.cos c2 * Real.cos c1 * Real.sin ((y - x) * Real.pi / 180 / 2) *
        Real.sin ((y - x) * Real.pi / 180 / 2) := by
    intro c1 c2 x y
    rw [show (x - y) * Real.pi / 180 / 2 = -((y - x) * Real.pi / 180 / 2) by ring,
      Real.sin_neg]
    ring
  simp only [calculateDistance]
  rw [hs b.lat a.lat,
    hcs (a.lat * Real.pi / 180) (b.lat * Real.pi / 180) b.lng a.lng]

/-- Helper: `findNearestSafePoint` is the candidate filter followed by
`selLoop` on head and tail. -/
theorem findNearestSafePoint_eq_selLoop (location : Location)
    (safePoints : List SafePoint) (activeFires : List FireData) :
    findNearestSafePoint location safePoints activeFires =
      match safePoints.filter
          (fun point => decide (isRouteSafe location point activeFires 5000)) with
      | [] => none
      | h :: t =>
        some (selLoop (fun p => calculateDistance location p.location) h t) :=
  rfl

/-- Helper: the strict-comparison fold keeps the first element of minimal
score: the input splits around the result into a prefix of strictly larger
scores and a suffix of no smaller scores. -/
theorem selLoop_split (d : SafePoint → ℝ) :
    ∀ (t : List SafePoint) (h : SafePoint),
      ∃ l1 l2, h :: t = l1 ++ selLoop d h t :: l2 ∧
        (∀ p ∈ l1, d (selLoop d h t) < d p) ∧
        (∀ p ∈ l2, d (selLoop d h t) ≤ d p) := by
  intro t
  induction t with
  | nil =>
    intro h
    exact ⟨[], [], rfl, by simp, by simp⟩
  | cons q t ih =>
    intro h
    have hstep : selLoop d h (q :: t) = selLoop d (if d q < d h then q else h) t :=
      rfl
    by_cases hc : d q < d h
    · rw [hstep, if_pos hc]
      obtain ⟨l1, l2, hsplit, h1, h2⟩ := ih q
      have hrq : d (selLoop d q t) ≤ d q := by
        cases l1 with
        | nil =>
          rw [List.nil_append] at hsplit
          injection hsplit with hq ht
          rw [← hq]
        | cons q0 l1x =>
          rw [List.cons_append] at hsplit
          injection hsplit with hq ht
          have := h1 q0 (List.mem_cons_self _ _)
          rw [← hq] at this
          exact le_of_lt this
      refine ⟨h :: l1, l2, ?_, ?_, h2⟩
      · rw [List.cons_append]
        exact congrArg (List.cons h) hsplit
      · intro p hp
        rcases List.mem_cons.mp hp with rfl | hp
        · exact lt_of_le_of_lt hrq hc
        · exact h1 p hp
    · rw [hstep, if_neg hc]
      obtain ⟨l1, l2, hsplit, h1, h2⟩ := ih h
      cases l1 with
      | nil =>
        rw [List.nil_append] at hsplit
        injection hsplit with hq ht
        refine ⟨[], q :: t, ?_, by simp, ?_⟩
        · rw [List.nil_append, ← hq]
        · intro p hp
          rcases List.mem_cons.mp hp with rfl | hp
          · rw [← hq]
            exact not_lt.mp hc
          · exact h2 p (ht ▸ hp)
      | cons q0 l1x =>
        rw [List.cons_append] at hsplit
        injection hsplit with hq ht
        have hrh : d (selLoop d h t) < d h := by
          have := h1 q0 (List.mem_cons_self _ _)
          rw [← hq] at this
          exact this
        refine ⟨h :: q :: l1x, l2, ?_, ?_, h2⟩
        · rw [List.cons_append, List.cons_append]
          exact congrArg (List.cons h) (congrArg (List.cons q) ht)
        · intro p hp
          rcases List.mem_cons.mp hp with rfl | hp
          · exact hrh
          · rcases List.mem_cons.mp hp with rfl | hp
            · exact lt_of_lt_of_le hrh (not_lt.mp hc)
            · exact h1 p (List.mem_cons_of_mem _ hp)

/-- Helper: a decomposition of a filtered list lifts to a decomposition of the
original list. -/
theorem filter_split (pred : SafePoint → Bool) :
    ∀ (l c1 : List SafePoint) (r : SafePoint) (c2 : List SafePoint),
      l.filter pred = c1 ++ r :: c2 →
      ∃ l1 l2, l = l1 ++ r :: l2 ∧ l1.filter pred = c1 ∧ l2.filter pred = c2 := by
  intro l
  induction l with
  | nil =>
    intro c1 r c2 h
    rw [List.filter_nil] at h
    cases c1 <;> simp_all
  | cons a l ih =>
    intro c1 r c2 h
    rw [List.filter_cons] at h
    by_cases ha : pred a
    · rw [if_pos ha] at h
      cases c1 with
      | nil =>
        rw [List.nil_append] at h
        injection h with h1 h2
        refine ⟨[], l, ?_, rfl, h2⟩
        rw [List.nil_append, h1]
      | cons b c1x =>
        rw [List.cons_append] at h
        injection h with h1 h2
        obtain ⟨l1, l2, hsp, hf1, hf2⟩ := ih c1x r c2 h2
        refine ⟨a :: l1, l2, ?_, ?_, hf2⟩
        · rw [List.cons_append, hsp]
        · rw [List.filter_cons, if_pos ha, hf1, h1]
    · rw [if_neg ha] at h
      obtain ⟨l1, l2, hsp, hf1, hf2⟩ := ih c1 r c2 h
      refine ⟨a :: l1, l2, ?_, ?_, hf2⟩
      · rw [List.cons_append, hsp]
      · rw [List.filter_cons, if_neg ha, hf1]

/-- Helper: a lone destination passing the safety check is selected. -/
theorem findNearestSafePoint_singleton_safe (l : Location) (p : SafePoint)
    (fires : List FireData) (h : isRouteSafe l p fires 5000) :
    findNearestSafePoint l [p] fires = some p := by
  unfold findNearestSafePoint
  rw [show List.filter (fun point => decide (isRouteSafe l point fires 5000)) [p]
      = [p] by rw [List.filter_cons, if_pos (decide_eq_true h)]; rfl]
  rfl

/-- Helper: a lone destination failing the safety check is not selected. -/
theorem findNearestSafePoint_singleton_unsafe (l : Location) (p : SafePoint)
    (fires : List FireData) (h : ¬ isRouteSafe l p fires 5000) :
    findNearestSafePoint l [p] fires = none := by
  unfold findNearestSafePoint
  rw [show List.filter (fun point => decide (isRouteSafe l point fires 5000)) [p]
      = [] by
    rw [List.filter_cons, if_neg (fun hd => h (of_decide_eq_true hd))]; rfl]

/-- Helper: a fire detection sitting exactly on the destination makes the
pairing unsafe. -/
theorem not_isRouteSafe_of_fire_at_destination (l : Location) (p : SafePoint)
    (fire : FireData) (fires : List FireData) (hmem : fire ∈ fires)
    (hloc : (⟨fire.latitude, fire.longitude⟩ : Location) = p.location) :
    ¬ isRouteSafe l p fires 5000 := by
  intro hsafe
  exact hsafe ⟨fire, hmem, Or.inr (by rw [hloc, calculateDistance_self]; norm_num)⟩

/-- C6: the haversine distance vanishes on equal arguments (exactly over the
reals, hence within any floating-point epsilon) and is symmetric in its two
arguments (the formula is commutative). -/
theorem c6_calculateDistance_self_comm :
    (∀ a : Location, calculateDistance a a = 0) ∧
    (∀ a b : Location, calculateDistance a b = calculateDistance b a) :=
  ⟨calculateDistance_self, calculateDistance_comm⟩

/-- C2: `isRouteSafe` rejects a start/destination pairing exactly when some
fire detection lies within the 5000 m safety radius (haversine distance to
the fire's own coordinate) of the start or of the destination; it accepts
whenever the fire list is empty, and it rejects whenever some fire is within
5000 m of the destination, regardless of the start point. -/
theorem c2_isRouteSafe_spec (location : Location) (safePoint : SafePoint)
    (activeFires : List FireData) :
    (¬ isRouteSafe location safePoint activeFires 5000 ↔
      ∃ fire ∈ activeFires,
        calculateDistance location ⟨fire.latitude, fire.longitude⟩ < 5000 ∨
        calculateDistance safePoint.location ⟨fire.latitude, fire.longitude⟩ <
          5000) ∧
    (activeFires = [] → isRouteSafe location safePoint activeFires 5000) ∧
    ((∃ fire ∈ activeFires,
        calculateDistance safePoint.location ⟨fire.latitude, fire.longitude⟩ <
          5000) →
      ¬ isRouteSafe location safePoint activeFires 5000) := by
  refine ⟨not_not, ?_, ?_⟩
  · rintro rfl ⟨fire, hf, _⟩
    exact absurd hf (List.not_mem_nil fire)
  · rintro ⟨fire, hf, hd⟩ hsafe
    exact hsafe ⟨fire, hf, Or.inr hd⟩

/-- Witness for C2 at concrete inputs: the empty fire list is safe, and a
fire detection sitting on the destination makes the pairing unsafe. -/
theorem c2_isRouteSafe_spec_witness :
    isRouteSafe sampleStart dodgerShelter [] 5000 ∧
    ¬ isRouteSafe sampleStart dodgerShelter [fireAtDodger] 5000 :=
  ⟨(c2_isRouteSafe_spec sampleStart dodgerShelter []).2.1 rfl,
    (c2_isRouteSafe_spec sampleStart dodgerShelter [fireAtDodger]).2.2
      ⟨fireAtDodger, List.mem_singleton_self _, by
        rw [show (⟨fireAtDodger.latitude, fireAtDodger.longitude⟩ : Location) =
            dodgerShelter.location from rfl, calculateDistance_self]
        norm_num⟩⟩

/-- C7: called directly with an empty destinations sequence, the selector
signals "none found" (it is a total function, so it cannot crash). -/
theorem c7_findNearestSafePoint_empty (start : Location)
    (fires : List FireData) : findNearestSafePoint start [] fires = none := rfl

/-- C3: whenever the selector returns a destination, that destination passes
the fire-proximity safety check and the input sequence splits around it so
that every safe destination occurring earlier is strictly farther from the
start and every safe destination occurring later is no closer: the result is
the first-encountered minimizer of start distance among safe destinations. -/
theorem c3_findNearestSafePoint_min (start : Location)
    (destinations : List SafePoint) (fires : List FireData) (r : SafePoint)
    (h : findNearestSafePoint start destinations fires = some r) :
    isRouteSafe start r fires 5000 ∧
    ∃ l1 l2, destinations = l1 ++ r :: l2 ∧
      (∀ p ∈ l1, isRouteSafe start p fires 5000 →
        calculateDistance start r.location < calculateDistance start p.location) ∧
      (∀ p ∈ l2, isRouteSafe start p fires 5000 →
        calculateDistance start r.location ≤ calculateDistance start p.location) := by
  rw [findNearestSafePoint_eq_selLoop] at h
  set pred := fun point => decide (isRouteSafe start point fires 5000) with hpred
  cases hfc : destinations.filter pred with
  | nil =>
    rw [hfc] at h
    exact Option.noConfusion h
  | cons h0 t =>
    rw [hfc] at h
    have hr : selLoop (fun p => calculateDistance start p.location) h0 t = r :=
      Option.some.inj h
    obtain ⟨c1, c2, hsplit, hlt, hle⟩ :=
      selLoop_split (fun p => calculateDistance start p.location) t h0
    rw [hr] at hsplit hlt hle
    have hfilter : destinations.filter pred = c1 ++ r :: c2 := by
      rw [hfc, hsplit]
    obtain ⟨l1, l2, hdes, hf1, hf2⟩ :=
      filter_split pred destinations c1 r c2 hfilter
    have hrsafe : isRouteSafe start r fires 5000 := by
      have hrmem : r ∈ destinations.filter pred := by
        rw [hfilter]
        exact List.mem_append_right c1 (List.mem_cons_self _ _)
      exact of_decide_eq_true ((List.mem_filter.mp hrmem).2)
    refine ⟨hrsafe, l1, l2, hdes, ?_, ?_⟩
    · intro p hp hps
      refine hlt p ?_
      rw [← hf1]
      exact List.mem_filter.mpr ⟨hp, decide_eq_true hps⟩
    · intro p hp hps
      refine hle p ?_
      rw [← hf2]
      exact List.mem_filter.mpr ⟨hp, decide_eq_true hps⟩

/-- Witness for C3: with a single open shelter and no fires the selector
returns that shelter, which is safe and first-minimal. -/
theorem c3_findNearestSafePoint_min_witness :
    findNearestSafePoint sampleStart [dodgerShelter] [] = some dodgerShelter ∧
    (isRouteSafe sampleStart dodgerShelter [] 5000 ∧
      ∃ l1 l2, [dodgerShelter] = l1 ++ dodgerShelter :: l2 ∧
        (∀ p ∈ l1, isRouteSafe sampleStart p [] 5000 →
          calculateDistance sampleStart dodgerShelter.location <
            calculateDistance sampleStart p.location) ∧
        (∀ p ∈ l2, isRouteSafe sampleStart p [] 5000 →
          calculateDistance sampleStart dodgerShelter.location ≤
            calculateDistance sampleStart p.location)) :=
  have hsel : findNearestSafePoint sampleStart [dodgerShelter] [] =
      some dodgerShelter :=
    findNearestSafePoint_singleton_safe _ _ _
      (fun ⟨fire, hf, _⟩ => absurd hf (List.not_mem_nil fire))
  ⟨hsel, c3_findNearestSafePoint_min sampleStart [dodgerShelter] [] dodgerShelter
    hsel⟩

/-- Helper: filtering commutes with mapping a predicate-preserving function. -/
theorem filter_map_comm (g : SafePoint → SafePoint) (pred : SafePoint → Bool)
    (hg : ∀ p, pred (g p) = pred p) :
    ∀ l : List SafePoint, (l.map g).filter pred = (l.filter pred).map g := by
  intro l
  induction l with
  | nil => rfl
  | cons p l ih =>
    rw [List.map_cons, List.filter_cons, List.filter_cons]
    simp only [hg]
    by_cases hp : pred p = true
    · rw [if_pos hp, if_pos hp, List.map_cons, ih]
    · rw [if_neg hp, if_neg hp, ih]

/-- Helper: the selection fold commutes with mapping a score-preserving
function over the candidates. -/
theorem selLoop_map (g : SafePoint → SafePoint) (d : SafePoint → ℝ)
    (hd : ∀ p, d (g p) = d p) :
    ∀ (t : List SafePoint) (h : SafePoint),
      selLoop d (g h) (t.map g) = g (selLoop d h t) := by
  intro t
  induction t with
  | nil => intro h; rfl
  | cons q t ih =>
    intro h
    show selLoop d (if d (g q) < d (g h) then g q else g h) (t.map g) = _
    simp only [hd]
    rw [show (if d q < d h then g q else g h) = g (if d q < d h then q else h)
      from (apply_ite g _ _ _).symm]
    exact ih (if d q < d h then q else h)

/-- C5 counterexample: with no active fires, a lone shelter with
`isOpen = false` is returned by the selector — the claimed invariant fails. -/
theorem c5_counterexample :
    findNearestSafePoint sampleStart [closedShelter] [] = some closedShelter ∧
    closedShelter.isOpen = false :=
  ⟨findNearestSafePoint_singleton_safe _ _ _
      (fun ⟨fire, hf, _⟩ => absurd hf (List.not_mem_nil fire)),
    rfl⟩

/-- C5 amended: the selector ignores the `isOpen` field entirely — rewriting
`isOpen` on every input destination rewrites it on the output and changes the
selection in no other way — so a closed destination can be returned whenever
it is the nearest fire-safe one. -/
theorem c5_amended_isOpen_ignored (start : Location)
    (destinations : List SafePoint) (fires : List FireData) (b : Bool) :
    findNearestSafePoint start (destinations.map (setOpen b)) fires =
      (findNearestSafePoint start destinations fires).map (setOpen b) := by
  rw [findNearestSafePoint_eq_selLoop, findNearestSafePoint_eq_selLoop,
    filter_map_comm (setOpen b)
      (fun point => decide (isRouteSafe start point fires 5000))
      (fun p => decide_eq_decide.mpr Iff.rfl) destinations]
  cases destinations.filter
      (fun point => decide (isRouteSafe start point fires 5000)) with
  | nil => rfl
  | cons h t =>
    rw [List.map_cons]
    show some (selLoop (fun p => calculateDistance start p.location)
      (setOpen b h) (t.map (setOpen b))) = _
    rw [selLoop_map (setOpen b) (fun p => calculateDistance start p.location)
      (fun p => rfl) t h]
    rfl

/-- Helper: a rejected provider request yields no route. -/
theorem getEvacuationRoute_providerError (accessToken : Option String)
    (provider : Location → Location → Except NetworkError DirectionsResponse)
    (start dest : Location) (e : NetworkError)
    (hp : provider start dest = Except.error e) :
    getEvacuationRoute accessToken provider start dest = none := by
  cases accessToken with
  | none => rfl
  | some token =>
    by_cases ht : token = ""
    · simp only [getEvacuationRoute, if_pos ht]
    · simp only [getEvacuationRoute, if_neg ht, hp]

/-- Helper: a provider response with zero candidate routes yields no route. -/
theorem getEvacuationRoute_zeroRoutes (accessToken : Option String)
    (provider : Location → Location → Except NetworkError DirectionsResponse)
    (start dest : Location)
    (hp : provider start dest = Except.ok ⟨some []⟩) :
    getEvacuationRoute accessToken provider start dest = none := by
  cases accessToken with
  | none => rfl
  | some token =>
    by_cases ht : token = ""
    · simp only [getEvacuationRoute, if_pos ht]
    · simp only [getEvacuationRoute, if_neg ht, hp]

/-- C1 counterexample: three distinct failure modes — empty destination
catalog, no safe destination (a fire sits on the only shelter), and a
provider returning zero candidate routes — all produce the identical outcome
`none`, so the caller cannot distinguish them; no named failure values exist
in the code. -/
theorem c1_counterexample :
    findSafestRoute (some "token") providerTwoRoutes sampleStart [] [] =
      none ∧
    findSafestRoute (some "token") providerTwoRoutes sampleStart
      [dodgerShelter] [fireAtDodger] = none ∧
    findSafestRoute (some "token") providerNoRoutes sampleStart
      [dodgerShelter] [] = none := by
  refine ⟨rfl, ?_, ?_⟩
  · unfold findSafestRoute
    rw [if_neg (by simp), findNearestSafePoint_singleton_unsafe _ _ _
      (not_isRouteSafe_of_fire_at_destination _ _ fireAtDodger _
        (List.mem_singleton_self _) rfl)]
  · unfold findSafestRoute
    rw [if_neg (by simp), findNearestSafePoint_singleton_safe _ _ _
      (fun ⟨fire, hf, _⟩ => absurd hf (List.not_mem_nil fire))]
    exact getEvacuationRoute_zeroRoutes _ _ _ _ rfl

/-- C1 amended: `findSafestRoute` is a total function (it never throws), but
it reports every failure mode with the single undistinguishable outcome
`none`: an empty catalog, an empty safe-candidate set, a rejected provider
request and a zero-candidate provider response all yield `none`; on a
successful selection the result is exactly the provider client's result for
the chosen destination. -/
theorem c1_amended_failures_indistinct (accessToken : Option String)
    (provider : Location → Location → Except NetworkError DirectionsResponse)
    (start : Location) (destinations : List SafePoint)
    (fires : List FireData) :
    (destinations.length = 0 →
      findSafestRoute accessToken provider start destinations fires = none) ∧
    (findNearestSafePoint start destinations fires = none →
      findSafestRoute accessToken provider start destinations fires = none) ∧
    (∀ d, findNearestSafePoint start destinations fires = some d →
      findSafestRoute accessToken provider start destinations fires =
        getEvacuationRoute accessToken provider start d.location) ∧
    (∀ d e, findNearestSafePoint start destinations fires = some d →
      provider start d.location = Except.error e →
      findSafestRoute accessToken provider start destinations fires = none) ∧
    (∀ d, findNearestSafePoint start destinations fires = some d →
      provider start d.location = Except.ok ⟨some []⟩ →
      findSafestRoute accessToken provider start destinations fires = none) := by
  have hbase : ∀ d, findNearestSafePoint start destinations fires = some d →
      findSafestRoute accessToken provider start destinations fires =
        getEvacuationRoute accessToken provider start d.location := by
    intro d h
    unfold findSafestRoute
    have hl : ¬ destinations.length = 0 := by
      intro hl
      rw [List.length_eq_zero] at hl
      subst hl
      exact Option.noConfusion h
    rw [if_neg hl, h]
  refine ⟨?_, ?_, hbase, ?_, ?_⟩
  · intro h
    unfold findSafestRoute
    rw [if_pos h]
  · intro h
    unfold findSafestRoute
    by_cases hl : destinations.length = 0
    · rw [if_pos hl]
    · rw [if_neg hl, h]
  · intro d e h hp
    rw [hbase d h]
    exact getEvacuationRoute_providerError accessToken provider start
      d.location e hp
  · intro d h hp
    rw [hbase d h]
    exact getEvacuationRoute_zeroRoutes accessToken provider start
      d.location hp

/-- Witness for C1 (amended) at concrete inputs, one per failure mode plus
the success equation. -/
theorem c1_amended_failures_indistinct_witness :
    findSafestRoute (some "token") providerDown sampleStart [] [] = none ∧
    findSafestRoute (some "token") providerDown sampleStart [dodgerShelter]
      [fireAtDodger] = none ∧
    findSafestRoute (some "token") providerTwoRoutes sampleStart
      [dodgerShelter] [] =
      getEvacuationRoute (some "token") providerTwoRoutes sampleStart
        dodgerShelter.location ∧
    findSafestRoute (some "token") providerDown sampleStart [dodgerShelter]
      [] = none ∧
    findSafestRoute (some "token") providerNoRoutes sampleStart
      [dodgerShelter] [] = none := by
  have hsafe : isRouteSafe sampleStart dodgerShelter [] 5000 :=
    fun ⟨fire, hf, _⟩ => absurd hf (List.not_mem_nil fire)
  have hsel : findNearestSafePoint sampleStart [dodgerShelter] [] =
      some dodgerShelter :=
    findNearestSafePoint_singleton_safe _ _ _ hsafe
  have hunsafe : findNearestSafePoint sampleStart [dodgerShelter]
      [fireAtDodger] = none :=
    findNearestSafePoint_singleton_unsafe _ _ _
      (not_isRouteSafe_of_fire_at_destination _ _ fireAtDodger _
        (List.mem_singleton_self _) rfl)
  exact ⟨(c1_amended_failures_indistinct (some "token") providerDown
      sampleStart [] []).1 rfl,
    (c1_amended_failures_indistinct (some "token") providerDown sampleStart
      [dodgerShelter] [fireAtDodger]).2.1 hunsafe,
    (c1_amended_failures_indistinct (some "token") providerTwoRoutes
      sampleStart [dodgerShelter] []).2.2.1 dodgerShelter hsel,
    (c1_amended_failures_indistinct (some "token") providerDown sampleStart
      [dodgerShelter] []).2.2.2.1 dodgerShelter NetworkError.timeout hsel rfl,
    (c1_amended_failures_indistinct (some "token") providerNoRoutes
      sampleStart [dodgerShelter] []).2.2.2.2 dodgerShelter hsel rfl⟩

/-- C4 counterexample: the provider responds with a top-ranked route and one
alternative candidate, yet the returned result carries `alternatives = none`:
the alternative routes present in the provider's response are discarded, not
retained. -/
theorem c4_counterexample :
    providerTwoRoutes sampleStart dodgerShelter.location =
      Except.ok ⟨some [routeOne, routeTwo]⟩ ∧
    getEvacuationRoute (some "token") providerTwoRoutes sampleStart
        dodgerShelter.location =
      some ⟨routeOne.geometry, routeOne.duration, routeOne.distance, none,
        none⟩ :=
  ⟨rfl, rfl⟩

/-- C4 amended: with a nonempty candidate list the client returns the
provider's first (top-ranked) route as the primary result, with no
re-ranking; but alternative candidates in the response are NOT retained —
the result's `alternatives` (and `warnings`) fields are always empty. -/
theorem c4_amended_first_route_drops_alternatives (token : String)
    (provider : Location → Location → Except NetworkError DirectionsResponse)
    (start dest : Location) (route : MapboxRoute) (rest : List MapboxRoute)
    (htok : ¬ token = "")
    (hresp : provider start dest = Except.ok ⟨some (route :: rest)⟩) :
    getEvacuationRoute (some token) provider start dest =
      some ⟨route.geometry, route.duration, route.distance, none, none⟩ := by
  simp only [getEvacuationRoute, if_neg htok, hresp]

/-- Witness for C4 (amended) at the concrete two-route provider. -/
theorem c4_amended_first_route_drops_alternatives_witness :
    ¬ "token" = "" ∧
    providerTwoRoutes sampleStart dodgerShelter.location =
      Except.ok ⟨some [routeOne, routeTwo]⟩ ∧
    getEvacuationRoute (some "token") providerTwoRoutes sampleStart
        dodgerShelter.location =
      some ⟨routeOne.geometry, routeOne.duration, routeOne.distance, none,
        none⟩ :=
  ⟨by decide, rfl,
    c4_amended_first_route_drops_alternatives "token" providerTwoRoutes
      sampleStart dodgerShelter.location routeOne [routeTwo] (by decide) rfl⟩

/-- C8: every fire detection produced by `getActiveFires` comes from a
response entry that passed the coordinate validation; entries with missing or
NaN latitude or longitude always fail that validation and are excluded; and
the mapping step defaults confidence to "50" and brightness to 350 when those
fields are absent. -/
theorem c8_getActiveFires_validated_defaulted :
    (∀ (apiKey : Option String) (entries : List RawFire) (now : String)
        (f : FireData),
      f ∈ getActiveFires apiKey (Except.ok (FiresResponse.arr entries)) now →
      ∃ raw ∈ entries, validCoords raw = true ∧ f = fireOfRaw now raw) ∧
    (∀ raw : RawFire,
      raw.latitude = JVal.missing ∨ raw.latitude = JVal.nan ∨
        raw.longitude = JVal.missing ∨ raw.longitude = JVal.nan →
      validCoords raw = false) ∧
    (∀ (now : String) (raw : RawFire), raw.confidence = JVal.missing →
      (fireOfRaw now raw).confidence = "50") ∧
    (∀ (now : String) (raw : RawFire), raw.bright_ti4 = JVal.missing →
      (fireOfRaw now raw).brightness = some 350) := by
  refine ⟨?_, ?_, ?_, ?_⟩
  · intro apiKey entries now f hf
    cases apiKey with
    | none => exact absurd hf (List.not_mem_nil f)
    | some key =>
      by_cases hk : key = ""
      · simp only [getActiveFires, if_pos hk] at hf
        exact absurd hf (List.not_mem_nil f)
      · simp only [getActiveFires, if_neg hk] at hf
        obtain ⟨raw, hrawf, hmap⟩ := List.mem_map.mp hf
        obtain ⟨hmem, hvalid⟩ := List.mem_filter.mp hrawf
        exact ⟨raw, hmem, hvalid, hmap.symm⟩
  · intro raw hcase
    rcases hcase with h | h | h | h <;> simp [validCoords, truthy, h]
  · intro now raw h
    simp [fireOfRaw, truthy, jsString, h]
  · intro now raw h
    simp [fireOfRaw, truthy, h]

/-- Witness for C8 at concrete entries: a well-formed entry survives and maps
through `fireOfRaw`; an entry with an absent latitude fails validation; an
entry with absent confidence and brightness receives the defaults. -/
theorem c8_getActiveFires_validated_defaulted_witness :
    fireOfRaw "2026-01-08" rawFireGood ∈
      getActiveFires (some "key") (Except.ok (FiresResponse.arr [rawFireGood]))
        "2026-01-08" ∧
    (∃ raw ∈ [rawFireGood], validCoords raw = true ∧
      fireOfRaw "2026-01-08" rawFireGood = fireOfRaw "2026-01-08" raw) ∧
    rawFireNoCoords.latitude = JVal.missing ∧
    validCoords rawFireNoCoords = false ∧
    rawFireDefaulted.confidence = JVal.missing ∧
    (fireOfRaw "2026-01-08" rawFireDefaulted).confidence = "50" ∧
    rawFireDefaulted.bright_ti4 = JVal.missing ∧
    (fireOfRaw "2026-01-08" rawFireDefaulted).brightness = some 350 := by
  have hmem : fireOfRaw "2026-01-08" rawFireGood ∈
      getActiveFires (some "key") (Except.ok (FiresResponse.arr [rawFireGood]))
        "2026-01-08" := by
    simp only [getActiveFires, if_neg (show ¬ "key" = "" by decide),
      List.filter_cons, if_pos (show validCoords rawFireGood = true from rfl),
      List.filter_nil, List.map_cons]
    exact List.mem_cons_self _ _
  exact ⟨hmem,
    (c8_getActiveFires_validated_defaulted).1 (some "key") [rawFireGood]
      "2026-01-08" (fireOfRaw "2026-01-08" rawFireGood) hmem,
    rfl, (c8_getActiveFires_validated_defaulted).2.1 rawFireNoCoords
      (Or.inl rfl),
    rfl, (c8_getActiveFires_validated_defaulted).2.2.1 "2026-01-08"
      rawFireDefaulted rfl,
    rfl, (c8_getActiveFires_validated_defaulted).2.2.2 "2026-01-08"
      rawFireDefaulted rfl⟩

/-- C9: missing or empty credentials, a rejected request, and a non-array
response payload all yield the empty fire list; `getActiveFires` is a total
function of its inputs, so no exception escapes its boundary. -/
theorem c9_getActiveFires_failures_empty
    (fetch : Except NetworkError FiresResponse) (now : String)
    (apiKey : Option String) (e : NetworkError) :
    getActiveFires none fetch now = [] ∧
    getActiveFires (some "") fetch now = [] ∧
    getActiveFires apiKey (Except.error e) now = [] ∧
    getActiveFires apiKey (Except.ok FiresResponse.notArray) now = [] := by
  refine ⟨rfl, rfl, ?_, ?_⟩ <;>
    (cases apiKey with
    | none => rfl
    | some key =>
      by_cases hk : key = ""
      · simp only [getActiveFires, if_pos hk]
      · simp only [getActiveFires, if_neg hk])

/-- C10: a provider entry whose latitude or longitude equals 0 fails the
truthiness-based coordinate validation (which runs before the NaN check), so
`getActiveFires` drops a detection on the equator or prime meridian even
though 0 is a valid coordinate. -/
theorem c10_zero_coordinate_dropped (key : String) (raw : RawFire)
    (now : String)
    (h : raw.latitude = JVal.num 0 ∨ raw.longitude = JVal.num 0) :
    validCoords raw = false ∧
    getActiveFires (some key) (Except.ok (FiresResponse.arr [raw])) now =
      [] := by
  have hv : validCoords raw = false := by
    rcases h with h | h <;> simp [validCoords, truthy, h]
  refine ⟨hv, ?_⟩
  by_cases hk : key = ""
  · simp only [getActiveFires, if_pos hk]
  · simp only [getActiveFires, if_neg hk, List.filter_cons, List.filter_nil]
    rw [if_neg (show ¬ validCoords raw = true by simp [hv]), List.map_nil]

/-- Witness for C10: the sample equator entry is dropped. -/
theorem c10_zero_coordinate_dropped_witness :
    rawFireZeroLat.latitude = JVal.num 0 ∧
    validCoords rawFireZeroLat = false ∧
    getActiveFires (some "key")
      (Except.ok (FiresResponse.arr [rawFireZeroLat])) "2026-01-08" = [] := by
  have h := c10_zero_coordinate_dropped "key" rawFireZeroLat "2026-01-08"
    (Or.inl rfl)
  exact ⟨rfl, h.1, h.2⟩
